import Mathlib

/-!
Verification of the settlement core of the micro-reward task platform.

The development shallowly embeds the two API handlers:
* `src/pages/api/tasks/submit.ts` — the settlement transaction engine
  (`submit` below, with the answer validator `validate`), and
* `src/pages/api/tasks/official.ts` — official task ingestion
  (`officialCreate` below).

The persistent store is modelled as `DB`: the `tasks` table is a keyed map
(ids are a primary key), the `submissions` table is a list of rows (the
store enforces no uniqueness on (task_id, user_id); only the handler checks
it), and `points` maps a user id to their point balance (`none` models a
missing row, on which the SQL `UPDATE users SET points = points + $1` is a
no-op). A rolled-back transaction persists nothing, so every rejecting
branch of the handler returns the database unchanged; in particular the
`UPDATE tasks SET status=closed` issued in the insufficient-escrow branch
is followed by `ROLLBACK` in the source and therefore does not persist.

Timestamps are modelled as integers; `now` is passed explicitly.
Monetary values are `Int`, mirroring the `BigInt` arithmetic of the source.
String operations model the JavaScript `String.prototype.trim` and
`toLowerCase` used by the validator.
-/

namespace RewardGame

/-- Task row, as selected by `SELECT * FROM tasks WHERE id = $1 FOR UPDATE`.
Columns no claim depends on (question text, choices, cost, fee, type) are
elided. `status` is the raw string column (`open` / `closed`). -/
structure Task where
  creatorId : Option Int
  questionType : String
  correctAnswer : String
  rewardPerCompletion : Int
  maxAcceptances : Int
  escrowBalance : Int
  status : String
  startsAt : Option Int
  endsAt : Option Int
deriving Repr, DecidableEq

/-- Submission row, as inserted by the handler. -/
structure Submission where
  taskId : Int
  userId : Int
  answer : String
  isCorrect : Bool
  awardedPoints : Int
deriving Repr, DecidableEq

/-- The persisted state the settlement transaction reads and writes. -/
structure DB where
  tasks : Int → Option Task
  submissions : List Submission
  points : Int → Option Int

/-- The outcome surfaced to the caller of the submit endpoint
(request-shape and auth plumbing excluded). -/
inductive SubmitResult where
  | notFound
  | taskClosed
  | notStarted
  | expired
  | selfSubmission
  | alreadySubmitted
  | insufficientEscrow
  | ok (isCorrect : Bool) (awardedPoints : Int)
deriving Repr, DecidableEq

/-- Whitespace characters removed by the JavaScript `trim()` the handler
calls (the ASCII fragment of WhiteSpace and LineTerminator). -/
def isJsSpace (c : Char) : Bool :=
  c = ' ' || c = '\t' || c = '\n' || c = '\r' || c = '\x0b' || c = '\x0c'

/-- JavaScript `String.prototype.trim`: surrounding whitespace removed from
both ends, nothing else. -/
def jsTrim (s : String) : String :=
  ⟨((s.data.dropWhile isJsSpace).reverse.dropWhile isJsSpace).reverse⟩

/-- JavaScript `String.prototype.toLowerCase`, restricted to the ASCII
letters that the tasks of this platform use. -/
def jsToLower (s : String) : String :=
  ⟨s.data.map Char.toLower⟩

/-- The answer validator (submit.ts lines 68–76): for question type `mcq`,
trimmed case-sensitive equality; for every other question type (the
source's `else` branch, covering `short`), trimmed lowercase equality. -/
def validate (questionType answer correctAnswer : String) : Bool :=
  if questionType = "mcq" then
    decide (jsTrim answer = jsTrim correctAnswer)
  else
    decide (jsToLower (jsTrim answer) = jsToLower (jsTrim correctAnswer))

/-- The guard `task.starts_at && new Date(task.starts_at) > now`
(submit.ts line 47): blocked when a start time is set and lies after now. -/
def startsBlocked : Option Int → Int → Bool
  | some st, now => decide (now < st)
  | none, _ => false

/-- The guard `task.ends_at && new Date(task.ends_at) < now`
(submit.ts line 51): blocked when an end time is set and lies before now. -/
def endsBlocked : Option Int → Int → Bool
  | some en, now => decide (en < now)
  | none, _ => false

/-- The guard `task.creator_id && Number(task.creator_id) === Number(userId)`
(submit.ts line 56): JavaScript truthiness skips the check when the column
is NULL or 0. -/
def creatorBlocked : Option Int → Int → Bool
  | some c, uid => decide (c ≠ 0) && decide (c = uid)
  | none, _ => false

/-- The duplicate check `SELECT * FROM submissions WHERE task_id = $1 AND
user_id = $2` (submit.ts line 62): true when a row for the pair exists. -/
def hasSubmission (subs : List Submission) (tid uid : Int) : Bool :=
  subs.any fun s => decide (s.taskId = tid) && decide (s.userId = uid)

/-- Count of correct submissions for a task, `SELECT COUNT(*) FROM
submissions WHERE task_id = $1 AND is_correct = true` (submit.ts line 105). -/
def countCorrect (subs : List Submission) (tid : Int) : Nat :=
  (subs.filter fun s => decide (s.taskId = tid) && s.isCorrect).length

/-- The task row after a successful award (submit.ts lines 91 and 103–109):
escrow debited by the reward, and status set to `closed` when the count of
correct submissions (including the new one) reaches `max_acceptances`. -/
def settleTask (task : Task) (cnt : Nat) : Task :=
  { task with
    escrowBalance := task.escrowBalance - task.rewardPerCompletion
    status := if task.maxAcceptances ≤ (cnt : Int) then "closed" else task.status }

/-- The state committed by the correct-answer branch with sufficient escrow
(submit.ts lines 90–111): escrow debited, submission row inserted, the
submitter's points credited (a no-op when the user row is absent, as for
the SQL UPDATE), and the task closed when the count of correct submissions
including the new one reaches `max_acceptances`. -/
def successDB (db : DB) (tid uid : Int) (ans : String) (task : Task) : DB :=
  let reward := task.rewardPerCompletion
  let subs := db.submissions ++ [⟨tid, uid, ans, true, reward⟩]
  { tasks := fun i => if i = tid then some (settleTask task (countCorrect subs tid)) else db.tasks i
    submissions := subs
    points := fun u => if u = uid then (db.points u).map (· + reward) else db.points u }

/-- The settlement section of the handler (submit.ts lines 68–122), reached
once all six preconditions pass; `task` is the locked row. -/
def settle (db : DB) (tid uid : Int) (ans : String) (task : Task) : SubmitResult × DB :=
  if validate task.questionType ans task.correctAnswer then
    if task.escrowBalance < task.rewardPerCompletion then
      -- The source issues UPDATE tasks SET status=closed and then ROLLBACK
      -- (lines 85–86), so nothing persists.
      (.insufficientEscrow, db)
    else
      (.ok true task.rewardPerCompletion, successDB db tid uid ans task)
  else
    (.ok false 0,
      { db with submissions := db.submissions ++ [⟨tid, uid, ans, false, 0⟩] })

/-- The submit handler's transaction (submit.ts lines 31–122): the six
precondition checks in source order, each rolling back, then settlement.
The caller's user id is already resolved; the handler's auth guard
(line 22) rejects a falsy user id before this point, so reachable calls
have `uid ≠ 0`. -/
def submit (db : DB) (tid uid : Int) (ans : String) (now : Int) : SubmitResult × DB :=
  match db.tasks tid with
  | none => (.notFound, db)
  | some task =>
    if task.status ≠ "open" then (.taskClosed, db)
    else if startsBlocked task.startsAt now then (.notStarted, db)
    else if endsBlocked task.endsAt now then (.expired, db)
    else if creatorBlocked task.creatorId uid then (.selfSubmission, db)
    else if hasSubmission db.submissions tid uid then (.alreadySubmitted, db)
    else settle db tid uid ans task

/-- A sequence of submit operations, each argument tuple being
(taskId, userId, answer, now); only the resulting state is kept. -/
def runSubmits (db : DB) (ops : List (Int × Int × String × Int)) : DB :=
  ops.foldl (fun d op => (submit d op.1 op.2.1 op.2.2.1 op.2.2.2).2) db

/-- Request body of the official task ingestion endpoint (official.ts
lines 17–26); `none` models an absent (or null) field. -/
structure OfficialRequest where
  question : Option String
  questionType : Option String
  choices : Option String
  correctAnswer : Option String
  rewardPerCompletion : Option Int
  maxAcceptances : Option Int
  startsAt : Option Int
  endsAt : Option Int
deriving Repr, DecidableEq

/-- Outcome of ingestion: rejection of a missing required field, or the
task row inserted. -/
inductive CreateResult where
  | badRequest
  | created (t : Task)
deriving Repr, DecidableEq

/-- JavaScript falsiness of an optional string field: absent or empty. -/
def strFalsy : Option String → Bool
  | none => true
  | some s => decide (s = "")

/-- The official ingestion handler (official.ts lines 17–51): requires
question, question_type and correct_answer to be truthy, applies the
destructuring defaults reward_per_completion = 0 and max_acceptances = 1,
and inserts a row with creator_id NULL, escrow_balance 0 and status open.
The provided reward and max_acceptances are not validated. -/
def officialCreate (req : OfficialRequest) : CreateResult :=
  if strFalsy req.question || strFalsy req.questionType || strFalsy req.correctAnswer then
    .badRequest
  else
    .created
      { creatorId := none
        questionType := req.questionType.getD ""
        correctAnswer := req.correctAnswer.getD ""
        rewardPerCompletion := req.rewardPerCompletion.getD 0
        maxAcceptances := req.maxAcceptances.getD 1
        escrowBalance := 0
        status := "open"
        startsAt := req.startsAt
        endsAt := req.endsAt }

/-! Equation lemmas: one per exit path of the handler, each conditioned on
the checks before it passing, mirroring the source's early returns. -/

/-- Exit at submit.ts line 37: unknown task id. -/
theorem submit_eq_notFound (db : DB) (tid uid : Int) (ans : String) (now : Int)
    (h : db.tasks tid = none) : submit db tid uid ans now = (.notFound, db) := by
  unfold submit; rw [h]

/-- Exit at submit.ts line 43: task not open. -/
theorem submit_eq_taskClosed (db : DB) (tid uid : Int) (ans : String) (now : Int) (task : Task)
    (h : db.tasks tid = some task) (h1 : task.status ≠ "open") :
    submit db tid uid ans now = (.taskClosed, db) := by
  unfold submit; rw [h]; simp [h1]

/-- Exit at submit.ts line 49: start time in the future. -/
theorem submit_eq_notStarted (db : DB) (tid uid : Int) (ans : String) (now : Int) (task : Task)
    (h : db.tasks tid = some task) (h1 : task.status = "open")
    (h2 : startsBlocked task.startsAt now = true) :
    submit db tid uid ans now = (.notStarted, db) := by
  unfold submit; rw [h]; simp [h1, h2]

/-- Exit at submit.ts line 53: end time in the past. -/
theorem submit_eq_expired (db : DB) (tid uid : Int) (ans : String) (now : Int) (task : Task)
    (h : db.tasks tid = some task) (h1 : task.status = "open")
    (h2 : startsBlocked task.startsAt now = false)
    (h3 : endsBlocked task.endsAt now = true) :
    submit db tid uid ans now = (.expired, db) := by
  unfold submit; rw [h]; simp [h1, h2, h3]

/-- Exit at submit.ts line 58: the creator submitting to their own task. -/
theorem submit_eq_selfSubmission (db : DB) (tid uid : Int) (ans : String) (now : Int) (task : Task)
    (h : db.tasks tid = some task) (h1 : task.status = "open")
    (h2 : startsBlocked task.startsAt now = false)
    (h3 : endsBlocked task.endsAt now = false)
    (h4 : creatorBlocked task.creatorId uid = true) :
    submit db tid uid ans now = (.selfSubmission, db) := by
  unfold submit; rw [h]; simp [h1, h2, h3, h4]

/-- Exit at submit.ts line 65: a submission for the pair already exists. -/
theorem submit_eq_alreadySubmitted (db : DB) (tid uid : Int) (ans : String) (now : Int)
    (task : Task)
    (h : db.tasks tid = some task) (h1 : task.status = "open")
    (h2 : startsBlocked task.startsAt now = false)
    (h3 : endsBlocked task.endsAt now = false)
    (h4 : creatorBlocked task.creatorId uid = false)
    (h5 : hasSubmission db.submissions tid uid = true) :
    submit db tid uid ans now = (.alreadySubmitted, db) := by
  unfold submit; rw [h]; simp [h1, h2, h3, h4, h5]

/-- With all six preconditions passing, the handler proceeds to settlement. -/
theorem submit_eq_settle (db : DB) (tid uid : Int) (ans : String) (now : Int) (task : Task)
    (h : db.tasks tid = some task) (h1 : task.status = "open")
    (h2 : startsBlocked task.startsAt now = false)
    (h3 : endsBlocked task.endsAt now = false)
    (h4 : creatorBlocked task.creatorId uid = false)
    (h5 : hasSubmission db.submissions tid uid = false) :
    submit db tid uid ans now = settle db tid uid ans task := by
  unfold submit; rw [h]; simp [h1, h2, h3, h4, h5]

/-- Exit at submit.ts line 121: incorrect answer, rejected row committed. -/
theorem settle_eq_incorrect (db : DB) (tid uid : Int) (ans : String) (task : Task)
    (hv : validate task.questionType ans task.correctAnswer = false) :
    settle db tid uid ans task =
      (.ok false 0, { db with submissions := db.submissions ++ [⟨tid, uid, ans, false, 0⟩] }) := by
  unfold settle; rw [hv]; simp

/-- Exit at submit.ts line 87: correct answer but escrow cannot cover the
reward; the transaction is rolled back, so the state is unchanged. -/
theorem settle_eq_insufficient (db : DB) (tid uid : Int) (ans : String) (task : Task)
    (hv : validate task.questionType ans task.correctAnswer = true)
    (he : task.escrowBalance < task.rewardPerCompletion) :
    settle db tid uid ans task = (.insufficientEscrow, db) := by
  unfold settle; rw [hv]; simp [he]

/-- Exit at submit.ts line 112: correct answer with sufficient escrow. -/
theorem settle_eq_award (db : DB) (tid uid : Int) (ans : String) (task : Task)
    (hv : validate task.questionType ans task.correctAnswer = true)
    (he : task.rewardPerCompletion ≤ task.escrowBalance) :
    settle db tid uid ans task =
      (.ok true task.rewardPerCompletion, successDB db tid uid ans task) := by
  unfold settle; rw [hv]; simp [not_lt.mpr he]

/-- Case analysis on the persisted state of a submit call: either some check
failed (or escrow was insufficient) and nothing persisted, or the task was
open with no duplicate and settlement committed one of its two branches. -/
theorem submit_snd_cases (db : DB) (tid uid : Int) (ans : String) (now : Int) :
    (submit db tid uid ans now).2 = db ∨
    ∃ task, db.tasks tid = some task ∧ task.status = "open" ∧
      hasSubmission db.submissions tid uid = false ∧
      ((validate task.questionType ans task.correctAnswer = false ∧
        (submit db tid uid ans now).2 =
          { db with submissions := db.submissions ++ [⟨tid, uid, ans, false, 0⟩] }) ∨
       (validate task.questionType ans task.correctAnswer = true ∧
        task.rewardPerCompletion ≤ task.escrowBalance ∧
        (submit db tid uid ans now).2 = successDB db tid uid ans task)) := by
  cases h : db.tasks tid with
  | none => exact Or.inl (by rw [submit_eq_notFound db tid uid ans now h])
  | some task =>
    by_cases h1 : task.status = "open"
    case neg => exact Or.inl (by rw [submit_eq_taskClosed db tid uid ans now task h h1])
    cases h2 : startsBlocked task.startsAt now with
    | true => exact Or.inl (by rw [submit_eq_notStarted db tid uid ans now task h h1 h2])
    | false =>
    cases h3 : endsBlocked task.endsAt now with
    | true => exact Or.inl (by rw [submit_eq_expired db tid uid ans now task h h1 h2 h3])
    | false =>
    cases h4 : creatorBlocked task.creatorId uid with
    | true => exact Or.inl (by rw [submit_eq_selfSubmission db tid uid ans now task h h1 h2 h3 h4])
    | false =>
    cases h5 : hasSubmission db.submissions tid uid with
    | true =>
      exact Or.inl (by rw [submit_eq_alreadySubmitted db tid uid ans now task h h1 h2 h3 h4 h5])
    | false =>
    have hs := submit_eq_settle db tid uid ans now task h h1 h2 h3 h4 h5
    cases hv : validate task.questionType ans task.correctAnswer with
    | false =>
      refine Or.inr ⟨task, rfl, h1, rfl, Or.inl ⟨hv, ?_⟩⟩
      rw [hs, settle_eq_incorrect db tid uid ans task hv]
    | true =>
      by_cases he : task.escrowBalance < task.rewardPerCompletion
      · exact Or.inl (by rw [hs, settle_eq_insufficient db tid uid ans task hv he])
      · refine Or.inr ⟨task, rfl, h1, rfl, Or.inr ⟨hv, not_lt.mp he, ?_⟩⟩
        rw [hs, settle_eq_award db tid uid ans task hv (not_lt.mp he)]

/-! Invariants of the store, and their preservation by the handler. -/

/-- Every task row has non-negative escrow and non-negative reward. -/
def EscrowInv (db : DB) : Prop :=
  ∀ i t, db.tasks i = some t → 0 ≤ t.escrowBalance ∧ 0 ≤ t.rewardPerCompletion

/-- Number of submission rows for a given (task, user) pair. -/
def countPair (subs : List Submission) (t u : Int) : Nat :=
  (subs.filter fun s => decide (s.taskId = t) && decide (s.userId = u)).length

/-- Every (task, user) pair has at most one submission row. -/
def OncePerPair (db : DB) : Prop :=
  ∀ t u, countPair db.submissions t u ≤ 1

/-- Every task row has a two-valued status, its correct-submission count
bounded by `max_acceptances`, and strictly below the bound while open. -/
def AcceptInv (db : DB) : Prop :=
  ∀ i t, db.tasks i = some t →
    (t.status = "open" ∨ t.status = "closed") ∧
    (countCorrect db.submissions i : Int) ≤ t.maxAcceptances ∧
    (t.status = "open" → (countCorrect db.submissions i : Int) < t.maxAcceptances)

theorem countPair_append (l1 l2 : List Submission) (t u : Int) :
    countPair (l1 ++ l2) t u = countPair l1 t u + countPair l2 t u := by
  unfold countPair; rw [List.filter_append, List.length_append]

theorem countPair_eq_zero (subs : List Submission) (t u : Int)
    (h : hasSubmission subs t u = false) : countPair subs t u = 0 := by
  unfold hasSubmission at h
  unfold countPair
  rw [List.length_eq_zero, List.filter_eq_nil_iff]
  intro s hs
  have := List.any_eq_false.mp h s hs
  simpa using this

theorem countCorrect_append (l1 l2 : List Submission) (i : Int) :
    countCorrect (l1 ++ l2) i = countCorrect l1 i + countCorrect l2 i := by
  unfold countCorrect; rw [List.filter_append, List.length_append]

theorem submit_escrowInv (db : DB) (tid uid : Int) (ans : String) (now : Int)
    (hinv : EscrowInv db) : EscrowInv (submit db tid uid ans now).2 := by
  rcases submit_snd_cases db tid uid ans now with h | ⟨task, hmem, _, _, hcase⟩
  · rw [h]; exact hinv
  rcases hcase with ⟨_, h⟩ | ⟨_, hre, h⟩
  · rw [h]; intro i t ht; exact hinv i t ht
  · rw [h]; intro i t ht
    simp only [successDB] at ht
    by_cases hi : i = tid
    · subst hi
      rw [if_pos rfl] at ht
      obtain ⟨h1, h2⟩ := hinv i task hmem
      injection ht with ht
      subst ht
      simp only [settleTask]
      exact ⟨sub_nonneg.mpr hre, h2⟩
    · rw [if_neg hi] at ht; exact hinv i t ht

theorem submit_oncePerPair (db : DB) (tid uid : Int) (ans : String) (now : Int)
    (hinv : OncePerPair db) : OncePerPair (submit db tid uid ans now).2 := by
  rcases submit_snd_cases db tid uid ans now with h | ⟨task, _, _, h5, hcase⟩
  · rw [h]; exact hinv
  have key : ∀ s : Submission, s.taskId = tid → s.userId = uid →
      ∀ t u, countPair (db.submissions ++ [s]) t u ≤ 1 := by
    intro s hst hsu t u
    rw [countPair_append]
    by_cases hq : t = tid ∧ u = uid
    · obtain ⟨rfl, rfl⟩ := hq
      rw [countPair_eq_zero db.submissions t u h5]
      have : countPair [s] t u ≤ 1 := by
        unfold countPair
        exact (List.length_filter_le _ _).trans (by simp)
      omega
    · have : countPair [s] t u = 0 := by
        unfold countPair
        rw [List.length_eq_zero, List.filter_eq_nil_iff]
        intro a ha
        simp only [List.mem_singleton] at ha
        subst ha
        simp only [hst, hsu, Bool.and_eq_true, decide_eq_true_eq]
        intro hc
        exact hq ⟨hc.1.symm, hc.2.symm⟩
      rw [this]
      have := hinv t u
      omega
  rcases hcase with ⟨_, h⟩ | ⟨_, _, h⟩
  · rw [h]; exact key ⟨tid, uid, ans, false, 0⟩ rfl rfl
  · rw [h]
    intro t u
    simp only [successDB]
    exact key ⟨tid, uid, ans, true, task.rewardPerCompletion⟩ rfl rfl t u

theorem submit_acceptInv (db : DB) (tid uid : Int) (ans : String) (now : Int)
    (hinv : AcceptInv db) : AcceptInv (submit db tid uid ans now).2 := by
  rcases submit_snd_cases db tid uid ans now with h | ⟨task, hmem, hopen, _, hcase⟩
  · rw [h]; exact hinv
  rcases hcase with ⟨_, h⟩ | ⟨_, _, h⟩
  · rw [h]; intro i t ht
    have hcnt : countCorrect (db.submissions ++ [⟨tid, uid, ans, false, 0⟩]) i =
        countCorrect db.submissions i := by
      rw [countCorrect_append]
      simp [countCorrect]
    simpa only [hcnt] using hinv i t ht
  · rw [h]; intro i t ht
    simp only [successDB] at ht ⊢
    have hcnt : ∀ j : Int,
        countCorrect (db.submissions ++ [⟨tid, uid, ans, true, task.rewardPerCompletion⟩]) j =
        countCorrect db.submissions j + (if tid = j then 1 else 0) := by
      intro j
      rw [countCorrect_append]
      by_cases hj : tid = j <;> simp [countCorrect, hj]
    by_cases hi : i = tid
    · subst hi
      rw [if_pos rfl] at ht
      injection ht with ht
      subst ht
      obtain ⟨_, _, hlt⟩ := hinv i task hmem
      have hlt2 := hlt hopen
      rw [hcnt i, if_pos rfl]
      simp only [settleTask]
      constructor
      · by_cases hcl : task.maxAcceptances ≤ ((countCorrect db.submissions i + 1 : Nat) : Int)
        · rw [if_pos hcl]; exact Or.inr rfl
        · rw [if_neg hcl]; exact Or.inl hopen
      constructor
      · push_cast
        omega
      · intro hst
        by_cases hcl : task.maxAcceptances ≤ ((countCorrect db.submissions i + 1 : Nat) : Int)
        · rw [if_pos hcl] at hst
          exact absurd hst (by decide)
        · push_cast at hcl ⊢
          omega
    · rw [if_neg hi] at ht
      rw [hcnt i, if_neg (fun hji => hi hji.symm)]
      simpa using hinv i t ht

theorem runSubmits_escrowInv (ops : List (Int × Int × String × Int)) :
    ∀ db : DB, EscrowInv db → EscrowInv (runSubmits db ops) := by
  induction ops with
  | nil => exact fun db h => h
  | cons op rest ih =>
    exact fun db h => ih _ (submit_escrowInv db op.1 op.2.1 op.2.2.1 op.2.2.2 h)

theorem runSubmits_oncePerPair (ops : List (Int × Int × String × Int)) :
    ∀ db : DB, OncePerPair db → OncePerPair (runSubmits db ops) := by
  induction ops with
  | nil => exact fun db h => h
  | cons op rest ih =>
    exact fun db h => ih _ (submit_oncePerPair db op.1 op.2.1 op.2.2.1 op.2.2.2 h)

theorem runSubmits_acceptInv (ops : List (Int × Int × String × Int)) :
    ∀ db : DB, AcceptInv db → AcceptInv (runSubmits db ops) := by
  induction ops with
  | nil => exact fun db h => h
  | cons op rest ih =>
    exact fun db h => ih _ (submit_acceptInv db op.1 op.2.1 op.2.2.1 op.2.2.2 h)

/-- Result of an accepted official-ingestion request, in terms of the
request's fields (official.ts lines 35–51). -/
theorem officialCreate_created_fields (req : OfficialRequest) (t : Task)
    (h : officialCreate req = .created t) :
    t = ⟨none, req.questionType.getD "", req.correctAnswer.getD "",
         req.rewardPerCompletion.getD 0, req.maxAcceptances.getD 1, 0, "open",
         req.startsAt, req.endsAt⟩ := by
  unfold officialCreate at h
  split at h
  · cases h
  · injection h with h
    exact h.symm

/-! Concrete fixtures used by counterexamples and witnesses. -/

/-- An open mcq task whose escrow (5) cannot cover its reward (10). -/
def taskInsuf : Task := ⟨none, "mcq", "a", 10, 5, 5, "open", none, none⟩

/-- Store holding only `taskInsuf` under id 1 and user 2 with 0 points. -/
def dbInsuf : DB :=
  ⟨fun i => if i = 1 then some taskInsuf else none, [],
   fun u => if u = 2 then some 0 else none⟩

/-- An open mcq task with escrow 25, reward 10, max_acceptances 5. -/
def taskRich : Task := ⟨none, "mcq", "a", 10, 5, 25, "open", none, none⟩

/-- Store holding only `taskRich` under id 1 and user 2 with 0 points. -/
def dbRich : DB :=
  ⟨fun i => if i = 1 then some taskRich else none, [],
   fun u => if u = 2 then some 0 else none⟩

/-- An open task like `taskRich` but with max_acceptances 1. -/
def taskMax1 : Task := ⟨none, "mcq", "a", 10, 1, 25, "open", none, none⟩

/-- Store holding only `taskMax1` under id 1 and user 2 with 0 points. -/
def dbMax1 : DB :=
  ⟨fun i => if i = 1 then some taskMax1 else none, [],
   fun u => if u = 2 then some 0 else none⟩

/-- An open task for which user 3 already has a submission row. -/
def taskOpenDup : Task := ⟨none, "mcq", "a", 10, 5, 25, "open", none, none⟩

/-- Store holding `taskOpenDup` under id 1 and an existing submission by
user 3. -/
def dbOpenDup : DB :=
  ⟨fun i => if i = 1 then some taskOpenDup else none, [⟨1, 3, "x", false, 0⟩],
   fun u => if u = 3 then some 0 else none⟩

/-- A closed task for which user 3 already has a submission row. -/
def taskClosedDup : Task := ⟨none, "mcq", "a", 10, 5, 25, "closed", none, none⟩

/-- Store holding `taskClosedDup` under id 1 and an existing submission by
user 3. -/
def dbClosedDup : DB :=
  ⟨fun i => if i = 1 then some taskClosedDup else none, [⟨1, 3, "x", false, 0⟩],
   fun u => if u = 3 then some 0 else none⟩

/-- An ingestion request supplying a negative reward_per_completion. -/
def reqNeg : OfficialRequest := ⟨some "q", some "mcq", none, some "a", some (-5), some 1, none, none⟩

/-- An ingestion request supplying reward 10 and max_acceptances 3. -/
def reqPos : OfficialRequest := ⟨some "q", some "mcq", none, some "a", some 10, some 3, none, none⟩

/-- The task produced by `officialCreate reqPos`. -/
def taskPos : Task := ⟨none, "mcq", "a", 10, 3, 0, "open", none, none⟩

/-- Store holding only `taskPos` under id 1 and user 2 with 0 points. -/
def dbOfficialPos : DB :=
  ⟨fun i => if i = 1 then some taskPos else none, [],
   fun u => if u = 2 then some 0 else none⟩

/-- Single-task store with non-negative escrow and reward satisfies the
escrow invariant. -/
theorem escrowInv_single (tid : Int) (task : Task) (subs : List Submission)
    (pts : Int → Option Int)
    (h1 : 0 ≤ task.escrowBalance) (h2 : 0 ≤ task.rewardPerCompletion) :
    EscrowInv ⟨fun i => if i = tid then some task else none, subs, pts⟩ := by
  intro i t ht
  dsimp only at ht
  split at ht
  · cases ht; exact ⟨h1, h2⟩
  · cases ht

/-- Single open task with positive max_acceptances and no submissions
satisfies the acceptance invariant. -/
theorem acceptInv_single (tid : Int) (task : Task) (pts : Int → Option Int)
    (h1 : task.status = "open") (h2 : (0 : Int) < task.maxAcceptances) :
    AcceptInv ⟨fun i => if i = tid then some task else none, [], pts⟩ := by
  intro i t ht
  dsimp only at ht
  split at ht
  · cases ht
    have hc : countCorrect [] i = 0 := rfl
    refine ⟨Or.inl h1, ?_, fun _ => ?_⟩
    · rw [hc]; push_cast; omega
    · rw [hc]; push_cast; omega
  · cases ht

/-! Claim theorems. -/

/-- C1: for a call passing all six preconditions, validated correct, with
escrow_balance < reward_per_completion, the code returns InsufficientEscrow,
records no submission and makes no deduction — but contrary to the claim the
closure does NOT persist: the handler issues the status UPDATE and then
ROLLBACK (submit.ts lines 85–86), so the task is still `open` afterwards. -/
theorem insufficientEscrow_rollback_keeps_task_open :
    submit dbInsuf 1 2 "a" 0 = (.insufficientEscrow, dbInsuf) ∧
    ((submit dbInsuf 1 2 "a" 0).2.tasks 1).map Task.status = some "open" :=
  ⟨rfl, rfl⟩

/-- C2: with all preconditions passing, a correct answer and sufficient
escrow, the call returns is_correct=true with awarded_points equal to the
reward, the task's escrow decreases by exactly the reward, a correct
submission row with that award exists, and the submitter's points increase
by the same amount. -/
theorem submit_correct_award (db : DB) (tid uid : Int) (ans : String) (now : Int) (task : Task)
    (h : db.tasks tid = some task) (h1 : task.status = "open")
    (h2 : startsBlocked task.startsAt now = false)
    (h3 : endsBlocked task.endsAt now = false)
    (h4 : creatorBlocked task.creatorId uid = false)
    (h5 : hasSubmission db.submissions tid uid = false)
    (hv : validate task.questionType ans task.correctAnswer = true)
    (hre : task.rewardPerCompletion ≤ task.escrowBalance) :
    (submit db tid uid ans now).1 = .ok true task.rewardPerCompletion ∧
    (∃ t1, (submit db tid uid ans now).2.tasks tid = some t1 ∧
      t1.escrowBalance = task.escrowBalance - task.rewardPerCompletion) ∧
    (⟨tid, uid, ans, true, task.rewardPerCompletion⟩ : Submission) ∈
      (submit db tid uid ans now).2.submissions ∧
    ∀ p, db.points uid = some p →
      (submit db tid uid ans now).2.points uid = some (p + task.rewardPerCompletion) := by
  have hs := submit_eq_settle db tid uid ans now task h h1 h2 h3 h4 h5
  rw [hs, settle_eq_award db tid uid ans task hv hre]
  refine ⟨rfl,
    ⟨settleTask task
      (countCorrect (db.submissions ++ [⟨tid, uid, ans, true, task.rewardPerCompletion⟩]) tid),
      ?_, ?_⟩, ?_, ?_⟩
  · simp [successDB]
  · simp [settleTask]
  · simp [successDB]
  · intro p hp
    simp [successDB, hp]

/-- C2 witness: on `dbRich` (escrow 25, reward 10), user 2 answering
correctly is awarded 10 points, escrow falls to 15, and the row is stored. -/
theorem submit_correct_award_witness :
    (submit dbRich 1 2 "a" 0).1 = .ok true 10 ∧
    ((submit dbRich 1 2 "a" 0).2.tasks 1).map Task.escrowBalance = some 15 ∧
    (⟨1, 2, "a", true, 10⟩ : Submission) ∈ (submit dbRich 1 2 "a" 0).2.submissions ∧
    (submit dbRich 1 2 "a" 0).2.points 2 = some 10 := by
  have h := submit_correct_award dbRich 1 2 "a" 0 taskRich rfl rfl rfl rfl rfl rfl
    (by decide) (by decide)
  refine ⟨h.1, ?_, h.2.2.1, ?_⟩
  · obtain ⟨t1, ht1, he⟩ := h.2.1
    rw [ht1]
    simp [he, taskRich]
  · have hp := h.2.2.2 0 rfl
    simpa using hp

/-- C6: the six preconditions are checked in source order; each violation,
with all earlier checks passing, returns its error with the state unchanged.
The SelfSubmission conjunct carries `uid ≠ 0`, which holds for every
reachable call because the handler's auth guard (submit.ts line 22) rejects
falsy user ids. -/
theorem submit_precondition_order (db : DB) (tid uid : Int) (ans : String) (now : Int) :
    (db.tasks tid = none → submit db tid uid ans now = (.notFound, db)) ∧
    (∀ task, db.tasks tid = some task → task.status ≠ "open" →
      submit db tid uid ans now = (.taskClosed, db)) ∧
    (∀ task st, db.tasks tid = some task → task.status = "open" →
      task.startsAt = some st → now < st →
      submit db tid uid ans now = (.notStarted, db)) ∧
    (∀ task en, db.tasks tid = some task → task.status = "open" →
      startsBlocked task.startsAt now = false → task.endsAt = some en → en < now →
      submit db tid uid ans now = (.expired, db)) ∧
    (∀ task c, db.tasks tid = some task → task.status = "open" →
      startsBlocked task.startsAt now = false → endsBlocked task.endsAt now = false →
      task.creatorId = some c → c = uid → uid ≠ 0 →
      submit db tid uid ans now = (.selfSubmission, db)) ∧
    (∀ task, db.tasks tid = some task → task.status = "open" →
      startsBlocked task.startsAt now = false → endsBlocked task.endsAt now = false →
      creatorBlocked task.creatorId uid = false →
      hasSubmission db.submissions tid uid = true →
      submit db tid uid ans now = (.alreadySubmitted, db)) := by
  have conj5 : ∀ task c, db.tasks tid = some task → task.status = "open" →
      startsBlocked task.startsAt now = false → endsBlocked task.endsAt now = false →
      task.creatorId = some c → c = uid → uid ≠ 0 →
      submit db tid uid ans now = (.selfSubmission, db) := by
    intro task c h h1 h2 h3 hc hcu hu
    subst hcu
    exact submit_eq_selfSubmission db tid c ans now task h h1 h2 h3
      (by rw [hc]; simp [creatorBlocked, hu])
  refine ⟨fun h => submit_eq_notFound db tid uid ans now h,
    fun task h h1 => submit_eq_taskClosed db tid uid ans now task h h1,
    fun task st h h1 hst hlt => submit_eq_notStarted db tid uid ans now task h h1
      (by rw [hst]; simp [startsBlocked, hlt]),
    fun task en h h1 h2 hen hlt => submit_eq_expired db tid uid ans now task h h1 h2
      (by rw [hen]; simp [endsBlocked, hlt]),
    conj5,
    fun task h h1 h2 h3 h4 h5 =>
      submit_eq_alreadySubmitted db tid uid ans now task h h1 h2 h3 h4 h5⟩

/-- C6 witness: on `dbOpenDup`, user 3 (who already has a submission row
for task 1) is rejected with AlreadySubmitted and nothing changes. -/
theorem submit_precondition_order_witness :
    submit dbOpenDup 1 3 "x" 0 = (.alreadySubmitted, dbOpenDup) :=
  (submit_precondition_order dbOpenDup 1 3 "x" 0).2.2.2.2.2 taskOpenDup
    rfl rfl rfl rfl rfl rfl

/-- C7: the validator is a total deterministic function of the two strings;
for `mcq` it accepts exactly when the trimmed strings are equal
(case-sensitive), and for `short` exactly when the trimmed, lowercased
strings are equal — no other normalization. -/
theorem validate_spec (a c : String) :
    (validate "mcq" a c = true ↔ jsTrim a = jsTrim c) ∧
    (validate "short" a c = true ↔ jsToLower (jsTrim a) = jsToLower (jsTrim c)) := by
  constructor
  · unfold validate
    rw [if_pos rfl]
    exact decide_eq_true_iff
  · unfold validate
    rw [if_neg (by decide)]
    exact decide_eq_true_iff

/-- C8: with all preconditions passing and an incorrect answer, the call
commits exactly one rejected submission row (is_correct=false,
awarded_points=0), leaves every task and every point balance unchanged, and
returns is_correct=false with awarded_points=0. -/
theorem submit_incorrect_records (db : DB) (tid uid : Int) (ans : String) (now : Int)
    (task : Task)
    (h : db.tasks tid = some task) (h1 : task.status = "open")
    (h2 : startsBlocked task.startsAt now = false)
    (h3 : endsBlocked task.endsAt now = false)
    (h4 : creatorBlocked task.creatorId uid = false)
    (h5 : hasSubmission db.submissions tid uid = false)
    (hv : validate task.questionType ans task.correctAnswer = false) :
    submit db tid uid ans now =
      (.ok false 0, { db with submissions := db.submissions ++ [⟨tid, uid, ans, false, 0⟩] }) ∧
    (submit db tid uid ans now).2.tasks = db.tasks ∧
    (submit db tid uid ans now).2.points = db.points := by
  have hs := submit_eq_settle db tid uid ans now task h h1 h2 h3 h4 h5
  rw [hs, settle_eq_incorrect db tid uid ans task hv]
  exact ⟨rfl, rfl, rfl⟩

/-- C8 witness: on `dbRich`, user 2 answering "b" (incorrect) gets a
rejected row, no award, and untouched escrow and points. -/
theorem submit_incorrect_records_witness :
    submit dbRich 1 2 "b" 0 =
      (.ok false 0, { dbRich with submissions := dbRich.submissions ++ [⟨1, 2, "b", false, 0⟩] }) ∧
    (submit dbRich 1 2 "b" 0).2.tasks = dbRich.tasks ∧
    (submit dbRich 1 2 "b" 0).2.points = dbRich.points :=
  submit_incorrect_records dbRich 1 2 "b" 0 taskRich rfl rfl rfl rfl rfl rfl (by decide)

/-- C3: starting from a store where every task has non-negative escrow and
non-negative reward, every sequence of submit operations preserves
non-negative escrow (and reward) for every task. -/
theorem escrow_never_negative (db : DB) (ops : List (Int × Int × String × Int))
    (hinv : EscrowInv db) : EscrowInv (runSubmits db ops) :=
  runSubmits_escrowInv ops db hinv

/-- C3 witness: after two correct submissions against `dbRich` (escrow 25,
reward 10), the surviving task's escrow (5) and reward (10) are
non-negative. -/
theorem escrow_never_negative_witness :
    (0 : Int) ≤ 5 ∧ (0 : Int) ≤ 10 :=
  escrow_never_negative dbRich [(1, 2, "a", 0), (1, 3, "a", 0)]
    (escrowInv_single 1 taskRich [] _ (by decide) (by decide))
    1 ⟨none, "mcq", "a", 10, 5, 5, "open", none, none⟩ (by decide)

/-- C4 counterexample: a user who already has a Submission row for a task
does not always receive AlreadySubmitted — when the task is closed the call
returns TaskClosed instead (the status check runs first). -/
theorem duplicate_submit_not_always_alreadySubmitted :
    hasSubmission dbClosedDup.submissions 1 3 = true ∧
    submit dbClosedDup 1 3 "x" 0 = (.taskClosed, dbClosedDup) ∧
    SubmitResult.taskClosed ≠ SubmitResult.alreadySubmitted :=
  ⟨rfl, rfl, by decide⟩

/-- C4 (amended): at most one Submission per (task, user) pair is preserved
by every sequence of submits, the duplicate check running before any reward
effect; a submit call by a user who already has a Submission for that task
never changes the state (so never awards a second time), and returns
AlreadySubmitted whenever the five earlier preconditions pass (an earlier
failing precondition returns that earlier error instead). -/
theorem duplicate_submission_protection (db : DB) (tid uid : Int) (ans : String) (now : Int)
    (ops : List (Int × Int × String × Int)) :
    (OncePerPair db → OncePerPair (runSubmits db ops)) ∧
    (hasSubmission db.submissions tid uid = true →
      (submit db tid uid ans now).2 = db ∧
      ∀ task, db.tasks tid = some task → task.status = "open" →
        startsBlocked task.startsAt now = false →
        endsBlocked task.endsAt now = false →
        creatorBlocked task.creatorId uid = false →
        (submit db tid uid ans now).1 = .alreadySubmitted) := by
  refine ⟨runSubmits_oncePerPair ops db, fun hdup => ⟨?_, ?_⟩⟩
  · rcases submit_snd_cases db tid uid ans now with h | ⟨task, _, _, h5, _⟩
    · exact h
    · rw [hdup] at h5
      cases h5
  · intro task h h1 h2 h3 h4
    rw [submit_eq_alreadySubmitted db tid uid ans now task h h1 h2 h3 h4 hdup]

/-- C4 witness: on `dbOpenDup` (user 3 already has a row for task 1), the
pair count stays at most one after a resubmission, the resubmission leaves
the store unchanged and returns AlreadySubmitted. -/
theorem duplicate_submission_protection_witness :
    countPair (runSubmits dbOpenDup [(1, 3, "x", 0)]).submissions 1 3 ≤ 1 ∧
    (submit dbOpenDup 1 3 "x" 0).2 = dbOpenDup ∧
    (submit dbOpenDup 1 3 "x" 0).1 = .alreadySubmitted := by
  have h := duplicate_submission_protection dbOpenDup 1 3 "x" 0 [(1, 3, "x", 0)]
  have honce : OncePerPair dbOpenDup := fun t u => List.length_filter_le _ _
  exact ⟨h.1 honce 1 3, (h.2 rfl).1, (h.2 rfl).2 taskOpenDup rfl rfl rfl rfl rfl⟩

/-- C5: starting from a store satisfying the acceptance invariant (statuses
two-valued, correct counts bounded, open tasks strictly below the bound),
after any sequence of submits the count of correct submissions of every
task never exceeds its max_acceptances, and a task whose count has reached
the bound is closed. -/
theorem acceptances_bounded (db : DB) (ops : List (Int × Int × String × Int))
    (hinv : AcceptInv db) :
    ∀ i task, (runSubmits db ops).tasks i = some task →
      (countCorrect (runSubmits db ops).submissions i : Int) ≤ task.maxAcceptances ∧
      (task.maxAcceptances ≤ (countCorrect (runSubmits db ops).submissions i : Int) →
        task.status = "closed") := by
  intro i task ht
  obtain ⟨hwf, hle, hlt⟩ := runSubmits_acceptInv ops db hinv i task ht
  refine ⟨hle, fun hge => ?_⟩
  rcases hwf with hopen | hclosed
  · exact absurd (hlt hopen) (not_lt.mpr hge)
  · exact hclosed

/-- C5 witness: on `dbMax1` (max_acceptances 1), one correct submission
drives the correct count to the bound and the task is closed. -/
theorem acceptances_bounded_witness :
    (countCorrect (runSubmits dbMax1 [(1, 2, "a", 0)]).submissions 1 : Int) ≤ 1 ∧
    ((1 : Int) ≤ (countCorrect (runSubmits dbMax1 [(1, 2, "a", 0)]).submissions 1 : Int) →
      ("closed" : String) = "closed") :=
  acceptances_bounded dbMax1 [(1, 2, "a", 0)]
    (acceptInv_single 1 taskMax1 _ rfl (by decide))
    1 ⟨none, "mcq", "a", 10, 1, 15, "closed", none, none⟩ (by decide)

/-- C9 counterexample: the ingestion endpoint accepts a request carrying
reward_per_completion = −5 (only question, question_type and correct_answer
are validated) and produces a task with a negative reward, violating the
claimed non-negativity. -/
theorem official_accepts_negative_reward :
    officialCreate reqNeg = .created ⟨none, "mcq", "a", -5, 1, 0, "open", none, none⟩ ∧
    (-5 : Int) < 0 :=
  ⟨rfl, by decide⟩

/-- C9 (amended): every accepted request produces a Task with status `open`,
escrow_balance 0 (hence non-negative) and creator_id null; its
reward_per_completion and max_acceptances are copied unvalidated from the
request (defaults 0 and 1), so they are non-negative exactly when the
supplied values are. -/
theorem officialCreate_invariants (req : OfficialRequest) (t : Task)
    (h : officialCreate req = .created t) :
    t.status = "open" ∧ t.escrowBalance = 0 ∧ t.creatorId = none ∧
    t.rewardPerCompletion = req.rewardPerCompletion.getD 0 ∧
    t.maxAcceptances = req.maxAcceptances.getD 1 ∧
    (0 ≤ req.rewardPerCompletion.getD 0 → 0 ≤ t.rewardPerCompletion) ∧
    (0 ≤ req.maxAcceptances.getD 1 → 0 ≤ t.maxAcceptances) := by
  have ht := officialCreate_created_fields req t h
  subst ht
  exact ⟨rfl, rfl, rfl, rfl, rfl, fun hr => hr, fun hm => hm⟩

/-- C9 witness: the accepted request `reqPos` (reward 10, max 3) yields
`taskPos` satisfying all the invariants. -/
theorem officialCreate_invariants_witness :
    taskPos.status = "open" ∧ taskPos.escrowBalance = 0 ∧ taskPos.creatorId = none ∧
    taskPos.rewardPerCompletion = reqPos.rewardPerCompletion.getD 0 ∧
    taskPos.maxAcceptances = reqPos.maxAcceptances.getD 1 ∧
    (0 ≤ reqPos.rewardPerCompletion.getD 0 → 0 ≤ taskPos.rewardPerCompletion) ∧
    (0 ≤ reqPos.maxAcceptances.getD 1 → 0 ≤ taskPos.maxAcceptances) :=
  officialCreate_invariants reqPos taskPos rfl

/-- C10: every task created by the official endpoint has escrow_balance 0
and creator_id null, so with a positive reward a correct submission whose
other preconditions pass is rejected with InsufficientEscrow and nothing is
awarded or persisted. -/
theorem official_task_rejects_correct_submission (req : OfficialRequest) (t : Task)
    (db : DB) (tid uid : Int) (ans : String) (now : Int)
    (hc : officialCreate req = .created t)
    (hr : 0 < t.rewardPerCompletion)
    (hdb : db.tasks tid = some t)
    (h2 : startsBlocked t.startsAt now = false)
    (h3 : endsBlocked t.endsAt now = false)
    (h5 : hasSubmission db.submissions tid uid = false)
    (hv : validate t.questionType ans t.correctAnswer = true) :
    t.escrowBalance = 0 ∧ t.creatorId = none ∧
    submit db tid uid ans now = (.insufficientEscrow, db) := by
  have ht := officialCreate_created_fields req t hc
  subst ht
  refine ⟨rfl, rfl, ?_⟩
  have hs := submit_eq_settle db tid uid ans now _ hdb rfl h2 h3 rfl h5
  rw [hs, settle_eq_insufficient db tid uid ans _ hv hr]

/-- C10 witness: `taskPos` (reward 10, escrow 0) created from `reqPos`
rejects user 2's correct answer with InsufficientEscrow. -/
theorem official_task_rejects_correct_submission_witness :
    taskPos.escrowBalance = 0 ∧ taskPos.creatorId = none ∧
    submit dbOfficialPos 1 2 "a" 0 = (.insufficientEscrow, dbOfficialPos) :=
  official_task_rejects_correct_submission reqPos taskPos dbOfficialPos 1 2 "a" 0
    rfl (by decide) rfl rfl rfl rfl (by decide)

end RewardGame
